import Mathlib

/-
Verification of the TooLoud sound-alert monitor (src/sound_alert.py).

The embedding models the decision pipeline of the script: the RMS level
estimator, the alarm debounce logic of SoundAlerter.trigger_alarm, the
per-frame decision logic of SoundAlerter.check_sound_level, and the
startup file-loading behaviour of the top-level script.  Wall-clock time
is passed explicitly: time.time() at the entry of a callback is the
parameter now, alarm.wait_done() advances time by the playback duration
of the clip, and sd.sleep(self.alarm_duration) advances it by the
cooldown.  The VAD classifier is an external black box and enters the
model as a boolean oracle per frame.  All arithmetic is exact (the
script uses floats; no claim here depends on rounding).
-/

namespace SoundAlert

/-- Python int() truncation toward zero, applied to a rational. Models the
expression int(alarm_duration * 1000) in SoundAlerter.__init__. -/
def pyInt (q : ℚ) : ℤ := q.num.tdiv q.den

/-- The configuration fields of SoundAlerter set in __init__ and read by the
decision logic. alarm_duration is stored in milliseconds, exactly as
self.alarm_duration = int(alarm_duration * 1000). The alarm wave object,
sample rate and VAD handle are external resources and are not part of the
decision state. -/
structure SoundAlerter where
  threshold : ℚ
  speech_threshold : ℚ
  alarm_duration : ℤ
deriving DecidableEq

/-- SoundAlerter.__init__: stores the thresholds and converts the cooldown
from seconds to integer milliseconds. -/
def SoundAlerter.init (threshold speech_threshold alarm_duration : ℚ) : SoundAlerter :=
  { threshold := threshold
    speech_threshold := speech_threshold
    alarm_duration := pyInt (alarm_duration * 1000) }

/-- The mutable alarm state of SoundAlerter: self.alarm_active and
self.last_alarm_time (seconds, as returned by time.time()). -/
structure AlarmState where
  alarm_active : Bool
  last_alarm_time : ℚ
deriving DecidableEq

/-- Initial alarm state set in __init__: alarm_active = False,
last_alarm_time = 0. -/
def initAlarmState : AlarmState := { alarm_active := false, last_alarm_time := 0 }

/-- The cooldown in seconds that sd.sleep(self.alarm_duration) lasts
(self.alarm_duration is milliseconds). -/
def cooldownSec (cfg : SoundAlerter) : ℚ := (cfg.alarm_duration : ℚ) / 1000

/-- Record of one actual firing inside trigger_alarm: playback starts at
start (the time.time() value read at entry), alarm.wait_done() returns at
start + playDur, and sd.sleep holds until start + playDur + cooldown. -/
structure Firing where
  start : ℚ
  playDur : ℚ
  cooldown : ℚ
deriving DecidableEq

/-- End of the whole firing episode: playback plus the cooldown sleep. -/
def fEnd (f : Firing) : ℚ := f.start + f.playDur + f.cooldown

/-- The value of self.alarm_active at wall-clock time t contributed by a
firing f: it is set to True just after play() is invoked at f.start and
reset to False after the cooldown sleep, at fEnd f. -/
def activeAt (f : Firing) (t : ℚ) : Bool :=
  decide (f.start < t) && decide (t < fEnd f)

/-- Whether the alarm clip of firing f is being played back at time t:
playback occupies [f.start, f.start + f.playDur). -/
def playingAt (f : Firing) (t : ℚ) : Bool :=
  decide (f.start ≤ t) && decide (t < f.start + f.playDur)

/-- Result of one call to trigger_alarm: the state at return, the wall-clock
time at return, the firing performed (if any), and the message printed
(if any). -/
structure TrigResult where
  st : AlarmState
  time : ℚ
  firing : Option Firing
  printed : Option String
deriving DecidableEq

def noiseAlarmMsg : String := "\nNoise level exceeded threshold! (ALARM!)\n"

def speechAlarmMsg : String := "\nSpeech level exceeded threshold! (ALARM!)\n"

/-- SoundAlerter.trigger_alarm. Guard: not self.alarm_active and
(current_time - self.last_alarm_time) * 1000 >= self.alarm_duration * 2.
On success it prints the message, starts playback, sets alarm_active = True
and last_alarm_time = current_time, blocks through wait_done() and
sd.sleep(self.alarm_duration), then resets alarm_active = False; hence the
returned state has alarm_active = false and the call returns at
now + playDur + cooldownSec cfg. Otherwise it is a no-op. -/
def trigger_alarm (cfg : SoundAlerter) (playDur : ℚ) (message : String)
    (s : AlarmState) (now : ℚ) : TrigResult :=
  if s.alarm_active = false ∧
      (cfg.alarm_duration : ℚ) * 2 ≤ (now - s.last_alarm_time) * 1000 then
    { st := { alarm_active := false, last_alarm_time := now }
      time := now + playDur + cooldownSec cfg
      firing := some { start := now, playDur := playDur, cooldown := cooldownSec cfg }
      printed := some message }
  else
    { st := s, time := now, firing := none, printed := none }

/-- The no-op trigger result (guard failed, or trigger_alarm not called). -/
def noTrig (s : AlarmState) (now : ℚ) : TrigResult :=
  { st := s, time := now, firing := none, printed := none }

/-- Normalization of one int16 sample: indata / 32768.0. -/
def normalized_sample (x : ℤ) : ℚ := (x : ℚ) / 32768

/-- The mean of squared normalized samples, np.mean(normalized_data ** 2). -/
def mean_square (indata : List ℤ) : ℚ :=
  ((indata.map (fun x => normalized_sample x ^ 2)).sum) / (indata.length : ℚ)

/-- rms_level = np.sqrt(np.mean(normalized_data ** 2)), the LevelReading of
a frame. -/
noncomputable def rms_level (indata : List ℤ) : ℝ :=
  Real.sqrt (mean_square indata)

/-- Computable rendition of the comparison rms_level > t used in the two
branch conditions of check_sound_level; levelGt_iff below proves it equal
to the real-number comparison. -/
def levelGt (indata : List ℤ) (t : ℚ) : Bool :=
  decide (t < 0) || decide (t ^ 2 < mean_square indata)

/-- Result of one call to check_sound_level: state and wall-clock time at
return, firings performed and alarm messages printed, in order. -/
structure StepResult where
  st : AlarmState
  time : ℚ
  firings : List Firing
  msgs : List String
deriving DecidableEq

/-- SoundAlerter.check_sound_level on one frame. isSpeech is the oracle
value of self.is_speech on the normalized frame (the external VAD).
The noise branch runs first: if rms_level > self.threshold, trigger_alarm
with the noise message. Then, independently (the second test is an if, not
an elif), if rms_level > self.speech_threshold and the frame contains
speech, trigger_alarm with the speech message, evaluated in the state and
at the wall-clock time left by the first branch. The status-line rendering
(sys.stdout.write of the current level) has no effect on state or
decisions and is not modelled. -/
def check_sound_level (cfg : SoundAlerter) (playDur : ℚ) (indata : List ℤ)
    (isSpeech : Bool) (s : AlarmState) (now : ℚ) : StepResult :=
  let a := if levelGt indata cfg.threshold then
      trigger_alarm cfg playDur noiseAlarmMsg s now
    else noTrig s now
  let b := if levelGt indata cfg.speech_threshold && isSpeech then
      trigger_alarm cfg playDur speechAlarmMsg a.st a.time
    else noTrig a.st a.time
  { st := b.st
    time := b.time
    firings := a.firing.toList ++ b.firing.toList
    msgs := a.printed.toList ++ b.printed.toList }

/-- One frame delivered by the input stream: gap is the wall-clock delay
between the return of the previous callback and the entry of this one
(nonnegative in any real execution), indata the int16 samples, isSpeech
the VAD oracle for this frame. -/
structure FrameInput where
  gap : ℚ
  indata : List ℤ
  isSpeech : Bool
deriving DecidableEq

/-- Result of a serialized run of callbacks. -/
structure RunResult where
  st : AlarmState
  time : ℚ
  firings : List Firing
  msgs : List String
deriving DecidableEq

/-- The serialized per-frame decision sequence: callbacks are never
re-entered, so each frame is processed from the state and time at which
the previous callback returned. -/
def runFrames (cfg : SoundAlerter) (playDur : ℚ) :
    AlarmState → ℚ → List FrameInput → RunResult
  | s, now, [] => { st := s, time := now, firings := [], msgs := [] }
  | s, now, i :: rest =>
    let r := check_sound_level cfg playDur i.indata i.isSpeech s (now + i.gap)
    let rr := runFrames cfg playDur r.st r.time rest
    { st := rr.st, time := rr.time
      firings := r.firings ++ rr.firings
      msgs := r.msgs ++ rr.msgs }

/-- The Level Estimator contract as the specification words it: normalize
each sample to the unit interval by dividing by the maximum representable
magnitude of the int16 format (32768), then take sqrt of the mean of the
squares. Stated separately from rms_level so the two can be compared. -/
noncomputable def specLevelReading (indata : List ℤ) : ℝ :=
  Real.sqrt (((indata.map (fun x : ℤ => ((x : ℝ) / 32768) ^ 2)).sum) / (indata.length : ℝ))

/-- Outcome of the top-level startup code: exitCode is some code if the
process exits before monitoring, output the diagnostics printed, and
streamOpened whether sd.InputStream was entered. -/
structure StartupResult where
  exitCode : Option ℕ
  output : List String
  streamOpened : Bool
deriving DecidableEq

/-- A single-quote character as a string (written by code point to keep the
source free of quote glyphs). -/
def squote : String := String.mk [Char.ofNat 39]

/-- The diagnostic printed when the alarm file is missing, naming the
configured file: Error: Alarm file (quote)name(quote) not found. -/
def alarmNotFoundMsg (alarm_file : String) : String :=
  "Error: Alarm file " ++ squote ++ alarm_file ++ squote ++ " not found."

/-- The top-level try/except around sa.WaveObject.from_wave_file: fileLoads
says whether loading raises FileNotFoundError. On failure the script prints
the diagnostic and calls sys.exit(1) before sd.InputStream is entered; on
success it proceeds to open the input stream. -/
def startup (alarm_file : String) (fileLoads : Bool) : StartupResult :=
  if fileLoads then { exitCode := none, output := [], streamOpened := true }
  else { exitCode := some 1, output := [alarmNotFoundMsg alarm_file], streamOpened := false }

/-- Bounds established by a single trigger_alarm call (or a skipped one)
entered at wall-clock time now. -/
def TrigBounds (playDur dc now : ℚ) (r : TrigResult) : Prop :=
  now ≤ r.time ∧
  ∀ f ∈ r.firing.toList,
    f.playDur = playDur ∧ f.cooldown = dc ∧ f.start = now ∧ fEnd f = r.time


theorem mean_square_nonneg (indata : List ℤ) : 0 ≤ mean_square indata := by
  unfold mean_square
  apply div_nonneg
  · apply List.sum_nonneg
    intro x hx
    simp only [List.mem_map] at hx
    obtain ⟨y, _, rfl⟩ := hx
    positivity
  · positivity

theorem levelGt_iff (indata : List ℤ) (t : ℚ) :
    levelGt indata t = true ↔ (t : ℝ) < rms_level indata := by
  unfold levelGt rms_level
  rw [Bool.or_eq_true, decide_eq_true_eq, decide_eq_true_eq]
  have hnn : (0 : ℝ) ≤ Real.sqrt (mean_square indata) := Real.sqrt_nonneg _
  constructor
  · rintro (ht | hm)
    · calc (t : ℝ) < 0 := by exact_mod_cast ht
      _ ≤ _ := hnn
    · by_cases ht : t < 0
      · calc (t : ℝ) < 0 := by exact_mod_cast ht
        _ ≤ _ := hnn
      · have ht' : (0 : ℝ) ≤ (t : ℝ) := by exact_mod_cast not_lt.mp ht
        exact (Real.lt_sqrt ht').mpr (by exact_mod_cast hm)
  · intro h
    by_cases ht : t < 0
    · exact Or.inl ht
    · have ht' : (0 : ℝ) ≤ (t : ℝ) := by exact_mod_cast not_lt.mp ht
      exact Or.inr (by exact_mod_cast (Real.lt_sqrt ht').mp h)

theorem levelGt_eq_false_iff (indata : List ℤ) (t : ℚ) :
    levelGt indata t = false ↔ rms_level indata ≤ (t : ℝ) := by
  simp only [Bool.eq_false_iff, Ne, levelGt_iff, not_lt]

theorem cast_sq_sum (l : List ℤ) :
    (((l.map (fun x => normalized_sample x ^ 2)).sum : ℚ) : ℝ)
      = (l.map (fun x : ℤ => ((x : ℝ) / 32768) ^ 2)).sum := by
  induction l with
  | nil => simp
  | cons a t ih =>
    rw [List.map_cons, List.map_cons, List.sum_cons, List.sum_cons, Rat.cast_add, ih]
    congr 1
    unfold normalized_sample
    push_cast
    ring

theorem cast_mean_square (l : List ℤ) :
    ((mean_square l : ℚ) : ℝ)
      = ((l.map (fun x : ℤ => ((x : ℝ) / 32768) ^ 2)).sum) / (l.length : ℝ) := by
  unfold mean_square
  rw [Rat.cast_div, cast_sq_sum]
  norm_num

theorem rms_level_eq_spec (l : List ℤ) : rms_level l = specLevelReading l := by
  unfold rms_level specLevelReading
  rw [cast_mean_square]

theorem rms_level_singleton (x : ℤ) (hx : 0 ≤ x) :
    rms_level [x] = (x : ℝ) / 32768 := by
  unfold rms_level
  have h1 : mean_square [x] = normalized_sample x ^ 2 := by
    simp [mean_square]
  rw [h1]
  push_cast [normalized_sample]
  rw [Real.sqrt_sq (div_nonneg (by exact_mod_cast hx) (by norm_num))]

theorem rms_level_replicate (n : ℕ) (hn : 0 < n) (x : ℤ) (hx : 0 ≤ x) :
    rms_level (List.replicate n x) = (x : ℝ) / 32768 := by
  unfold rms_level
  have h1 : mean_square (List.replicate n x) = normalized_sample x ^ 2 := by
    unfold mean_square
    rw [List.map_replicate, List.sum_replicate, List.length_replicate, nsmul_eq_mul,
      mul_div_cancel_left₀ _ (by exact_mod_cast hn.ne' : (n : ℚ) ≠ 0)]
  rw [h1]
  push_cast [normalized_sample]
  rw [Real.sqrt_sq (div_nonneg (by exact_mod_cast hx) (by norm_num))]

theorem rms_level_zero_frame (l : List ℤ) (hz : ∀ x ∈ l, x = 0) :
    rms_level l = 0 := by
  unfold rms_level
  have h1 : (l.map (fun x => normalized_sample x ^ 2)).sum = 0 := by
    apply List.sum_eq_zero
    intro q hq
    simp only [List.mem_map] at hq
    obtain ⟨y, hy, rfl⟩ := hq
    rw [hz y hy]
    simp [normalized_sample]
  rw [mean_square, h1, zero_div]
  simp

theorem trigger_alarm_pos (cfg : SoundAlerter) (playDur : ℚ) (m : String)
    (s : AlarmState) (now : ℚ)
    (h : s.alarm_active = false ∧
      (cfg.alarm_duration : ℚ) * 2 ≤ (now - s.last_alarm_time) * 1000) :
    trigger_alarm cfg playDur m s now =
      { st := { alarm_active := false, last_alarm_time := now }
        time := now + playDur + cooldownSec cfg
        firing := some { start := now, playDur := playDur, cooldown := cooldownSec cfg }
        printed := some m } := by
  unfold trigger_alarm
  rw [if_pos h]

theorem trigger_alarm_neg (cfg : SoundAlerter) (playDur : ℚ) (m : String)
    (s : AlarmState) (now : ℚ)
    (h : ¬(s.alarm_active = false ∧
      (cfg.alarm_duration : ℚ) * 2 ≤ (now - s.last_alarm_time) * 1000)) :
    trigger_alarm cfg playDur m s now = noTrig s now := by
  unfold trigger_alarm noTrig
  rw [if_neg h]




theorem trigger_alarm_bounds (cfg : SoundAlerter) (playDur : ℚ) (m : String)
    (s : AlarmState) (now : ℚ) (hP : 0 ≤ playDur) (hdc : 0 ≤ cooldownSec cfg) :
    TrigBounds playDur (cooldownSec cfg) now (trigger_alarm cfg playDur m s now) := by
  unfold TrigBounds trigger_alarm
  split_ifs with h
  · refine ⟨by simp only; linarith, ?_⟩
    intro f hf
    simp only [Option.toList_some, List.mem_singleton] at hf
    subst hf
    simp [fEnd]
  · simp [noTrig]

theorem noTrig_bounds (playDur dc : ℚ) (s : AlarmState) (now : ℚ) :
    TrigBounds playDur dc now (noTrig s now) := by
  simp [TrigBounds, noTrig]

theorem check_step_spec (cfg : SoundAlerter) (playDur : ℚ) (indata : List ℤ)
    (sp : Bool) (s : AlarmState) (now : ℚ)
    (hP : 0 ≤ playDur) (hdc : 0 ≤ cooldownSec cfg) :
    now ≤ (check_sound_level cfg playDur indata sp s now).time ∧
    (∀ f ∈ (check_sound_level cfg playDur indata sp s now).firings,
      f.playDur = playDur ∧ f.cooldown = cooldownSec cfg ∧
      now ≤ f.start ∧ fEnd f ≤ (check_sound_level cfg playDur indata sp s now).time) ∧
    (check_sound_level cfg playDur indata sp s now).firings.Pairwise
      (fun f g => fEnd f ≤ g.start) := by
  simp only [check_sound_level]
  set a := if levelGt indata cfg.threshold then
      trigger_alarm cfg playDur noiseAlarmMsg s now
    else noTrig s now with ha_def
  set b := if levelGt indata cfg.speech_threshold && sp then
      trigger_alarm cfg playDur speechAlarmMsg a.st a.time
    else noTrig a.st a.time with hb_def
  have ha : TrigBounds playDur (cooldownSec cfg) now a := by
    rw [ha_def]
    split_ifs
    · exact trigger_alarm_bounds cfg playDur noiseAlarmMsg s now hP hdc
    · exact noTrig_bounds playDur (cooldownSec cfg) s now
  have hb : TrigBounds playDur (cooldownSec cfg) a.time b := by
    rw [hb_def]
    split_ifs
    · exact trigger_alarm_bounds cfg playDur speechAlarmMsg a.st a.time hP hdc
    · exact noTrig_bounds playDur (cooldownSec cfg) a.st a.time
  obtain ⟨ha1, ha2⟩ := ha
  obtain ⟨hb1, hb2⟩ := hb
  refine ⟨le_trans ha1 hb1, ?_, ?_⟩
  · intro f hf
    rcases List.mem_append.mp hf with hf | hf
    · obtain ⟨e1, e2, e3, e4⟩ := ha2 f hf
      exact ⟨e1, e2, e3.ge, by rw [e4]; exact hb1⟩
    · obtain ⟨e1, e2, e3, e4⟩ := hb2 f hf
      exact ⟨e1, e2, le_trans ha1 e3.ge, e4.le⟩
  · rw [List.pairwise_append]
    refine ⟨?_, ?_, ?_⟩
    · cases h : a.firing <;> simp
    · cases h : b.firing <;> simp
    · intro f hf g hg
      obtain ⟨_, _, _, e4⟩ := ha2 f hf
      obtain ⟨_, _, e3, _⟩ := hb2 g hg
      rw [e4, e3]



theorem runFrames_spec (cfg : SoundAlerter) (playDur : ℚ)
    (hP : 0 ≤ playDur) (hdc : 0 ≤ cooldownSec cfg) :
    ∀ (inputs : List FrameInput) (s : AlarmState) (now : ℚ),
      (∀ i ∈ inputs, 0 ≤ i.gap) →
      now ≤ (runFrames cfg playDur s now inputs).time ∧
      (∀ f ∈ (runFrames cfg playDur s now inputs).firings,
        f.playDur = playDur ∧ f.cooldown = cooldownSec cfg ∧
        now ≤ f.start ∧ fEnd f ≤ (runFrames cfg playDur s now inputs).time) ∧
      (runFrames cfg playDur s now inputs).firings.Pairwise
        (fun f g => fEnd f ≤ g.start) := by
  intro inputs
  induction inputs with
  | nil =>
    intro s now _
    simp [runFrames]
  | cons i rest ih =>
    intro s now hg
    have hgi : 0 ≤ i.gap := hg i (List.mem_cons_self i rest)
    have hgr : ∀ j ∈ rest, 0 ≤ j.gap := fun j hj => hg j (List.mem_cons_of_mem i hj)
    simp only [runFrames]
    set r := check_sound_level cfg playDur i.indata i.isSpeech s (now + i.gap) with hr_def
    obtain ⟨hs1, hs2, hs3⟩ :=
      check_step_spec cfg playDur i.indata i.isSpeech s (now + i.gap) hP hdc
    obtain ⟨hi1, hi2, hi3⟩ := ih r.st r.time hgr
    have hnow : now ≤ r.time := le_trans (by linarith) hs1
    refine ⟨le_trans hnow hi1, ?_, ?_⟩
    · intro f hf
      rcases List.mem_append.mp hf with hf | hf
      · obtain ⟨e1, e2, e3, e4⟩ := hs2 f hf
        exact ⟨e1, e2, by linarith, le_trans e4 hi1⟩
      · obtain ⟨e1, e2, e3, e4⟩ := hi2 f hf
        exact ⟨e1, e2, le_trans hnow e3, e4⟩
    · rw [List.pairwise_append]
      refine ⟨hs3, hi3, ?_⟩
      intro f hf g hg'
      obtain ⟨_, _, _, e4⟩ := hs2 f hf
      obtain ⟨_, _, e3, _⟩ := hi2 g hg'
      exact le_trans e4 e3



theorem check_eq_no_conditions (cfg : SoundAlerter) (playDur : ℚ) (indata : List ℤ)
    (sp : Bool) (s : AlarmState) (now : ℚ)
    (h1 : levelGt indata cfg.threshold = false)
    (h2 : (levelGt indata cfg.speech_threshold && sp) = false) :
    check_sound_level cfg playDur indata sp s now = ⟨s, now, [], []⟩ := by
  simp [check_sound_level, h1, h2, noTrig]

theorem check_eq_guard_blocked (cfg : SoundAlerter) (playDur : ℚ) (indata : List ℤ)
    (sp : Bool) (s : AlarmState) (now : ℚ)
    (hgd : ¬((cfg.alarm_duration : ℚ) * 2 ≤ (now - s.last_alarm_time) * 1000)) :
    check_sound_level cfg playDur indata sp s now = ⟨s, now, [], []⟩ := by
  have hneg : ∀ m : String, trigger_alarm cfg playDur m s now = noTrig s now :=
    fun m => trigger_alarm_neg cfg playDur m s now (fun hc => hgd hc.2)
  simp [check_sound_level, hneg, noTrig]

theorem check_eq_noise_only (cfg : SoundAlerter) (playDur : ℚ) (indata : List ℤ)
    (sp : Bool) (s : AlarmState) (now : ℚ)
    (hIdle : s.alarm_active = false)
    (h1 : levelGt indata cfg.threshold = true)
    (h2 : (levelGt indata cfg.speech_threshold && sp) = false)
    (hgd : (cfg.alarm_duration : ℚ) * 2 ≤ (now - s.last_alarm_time) * 1000) :
    check_sound_level cfg playDur indata sp s now =
      ⟨⟨false, now⟩, now + playDur + cooldownSec cfg,
       [⟨now, playDur, cooldownSec cfg⟩], [noiseAlarmMsg]⟩ := by
  simp [check_sound_level, h1, h2,
    trigger_alarm_pos cfg playDur noiseAlarmMsg s now ⟨hIdle, hgd⟩, noTrig]

theorem check_eq_speech_only (cfg : SoundAlerter) (playDur : ℚ) (indata : List ℤ)
    (sp : Bool) (s : AlarmState) (now : ℚ)
    (hIdle : s.alarm_active = false)
    (h1 : levelGt indata cfg.threshold = false)
    (h2 : (levelGt indata cfg.speech_threshold && sp) = true)
    (hgd : (cfg.alarm_duration : ℚ) * 2 ≤ (now - s.last_alarm_time) * 1000) :
    check_sound_level cfg playDur indata sp s now =
      ⟨⟨false, now⟩, now + playDur + cooldownSec cfg,
       [⟨now, playDur, cooldownSec cfg⟩], [speechAlarmMsg]⟩ := by
  simp [check_sound_level, h1, h2,
    trigger_alarm_pos cfg playDur speechAlarmMsg s now ⟨hIdle, hgd⟩, noTrig]

theorem check_eq_both_single (cfg : SoundAlerter) (playDur : ℚ) (indata : List ℤ)
    (sp : Bool) (s : AlarmState) (now : ℚ)
    (hIdle : s.alarm_active = false)
    (h1 : levelGt indata cfg.threshold = true)
    (h2 : (levelGt indata cfg.speech_threshold && sp) = true)
    (hgd : (cfg.alarm_duration : ℚ) * 2 ≤ (now - s.last_alarm_time) * 1000)
    (hg2 : (playDur + cooldownSec cfg) * 1000 < (cfg.alarm_duration : ℚ) * 2) :
    check_sound_level cfg playDur indata sp s now =
      ⟨⟨false, now⟩, now + playDur + cooldownSec cfg,
       [⟨now, playDur, cooldownSec cfg⟩], [noiseAlarmMsg]⟩ := by
  have e1 := trigger_alarm_pos cfg playDur noiseAlarmMsg s now ⟨hIdle, hgd⟩
  have e2 : trigger_alarm cfg playDur speechAlarmMsg
      { alarm_active := false, last_alarm_time := now }
      (now + playDur + cooldownSec cfg) =
      noTrig { alarm_active := false, last_alarm_time := now }
        (now + playDur + cooldownSec cfg) := by
    apply trigger_alarm_neg
    rintro ⟨-, hle⟩
    have he : (now + playDur + cooldownSec cfg - now) * 1000
        = (playDur + cooldownSec cfg) * 1000 := by ring
    rw [he] at hle
    linarith
  simp [check_sound_level, h1, h2, e1, e2, noTrig]

theorem check_eq_both_double (cfg : SoundAlerter) (playDur : ℚ) (indata : List ℤ)
    (sp : Bool) (s : AlarmState) (now : ℚ)
    (hIdle : s.alarm_active = false)
    (h1 : levelGt indata cfg.threshold = true)
    (h2 : (levelGt indata cfg.speech_threshold && sp) = true)
    (hgd : (cfg.alarm_duration : ℚ) * 2 ≤ (now - s.last_alarm_time) * 1000)
    (hg2 : (cfg.alarm_duration : ℚ) * 2 ≤ (playDur + cooldownSec cfg) * 1000) :
    check_sound_level cfg playDur indata sp s now =
      ⟨⟨false, now + playDur + cooldownSec cfg⟩,
       now + playDur + cooldownSec cfg + playDur + cooldownSec cfg,
       [⟨now, playDur, cooldownSec cfg⟩,
        ⟨now + playDur + cooldownSec cfg, playDur, cooldownSec cfg⟩],
       [noiseAlarmMsg, speechAlarmMsg]⟩ := by
  have e1 := trigger_alarm_pos cfg playDur noiseAlarmMsg s now ⟨hIdle, hgd⟩
  have e2 := trigger_alarm_pos cfg playDur speechAlarmMsg
    { alarm_active := false, last_alarm_time := now }
    (now + playDur + cooldownSec cfg)
    ⟨rfl, by
      have he : (now + playDur + cooldownSec cfg - now) * 1000
          = (playDur + cooldownSec cfg) * 1000 := by ring
      rw [he]
      linarith⟩
  simp [check_sound_level, h1, h2, e1, e2]



/-- C2: Trigger-gap (debounce) property: if an alarm fires at time T with
cooldown duration D and clip playback duration P, no later firing of the
serialized run starts before T + P + D, for every stream of frames, even
when every frame exceeds the threshold. -/
theorem trigger_gap (cfg : SoundAlerter) (playDur : ℚ) (s0 : AlarmState)
    (t0 : ℚ) (inputs : List FrameInput)
    (hP : 0 ≤ playDur) (hdc : 0 ≤ cooldownSec cfg)
    (hg : ∀ i ∈ inputs, 0 ≤ i.gap) :
    (runFrames cfg playDur s0 t0 inputs).firings.Pairwise
      (fun f g => f.start + f.playDur + f.cooldown ≤ g.start) := by
  have h := (runFrames_spec cfg playDur hP hdc inputs s0 t0 hg).2.2
  exact h.imp (fun hfg => by simpa [fEnd] using hfg)

theorem trigger_gap_witness :
    (0 : ℚ) ≤ 5 ∧
    (0 : ℚ) ≤ cooldownSec ⟨1/10, 0, 3000⟩ ∧
    (∀ i ∈ ([⟨100, [16384], false⟩, ⟨100, [16384], false⟩] : List FrameInput),
      0 ≤ i.gap) ∧
    (runFrames ⟨1/10, 0, 3000⟩ 5 initAlarmState 0
        [⟨100, [16384], false⟩, ⟨100, [16384], false⟩]).firings.Pairwise
      (fun f g => f.start + f.playDur + f.cooldown ≤ g.start) :=
  ⟨by norm_num, by norm_num [cooldownSec], by decide,
    trigger_gap ⟨1/10, 0, 3000⟩ 5 initAlarmState 0
      [⟨100, [16384], false⟩, ⟨100, [16384], false⟩]
      (by norm_num) (by norm_num [cooldownSec]) (by decide)⟩

/-- C5: No-overlap property: trigger_alarm starts playback only when
alarm_active is false, and in the serialized run no play call ever happens
at an instant where a previous firing still has the active flag set. -/
theorem no_overlap (cfg : SoundAlerter) (playDur : ℚ) (s0 : AlarmState)
    (t0 : ℚ) (inputs : List FrameInput)
    (hP : 0 ≤ playDur) (hdc : 0 ≤ cooldownSec cfg)
    (hg : ∀ i ∈ inputs, 0 ≤ i.gap) :
    (∀ (m : String) (s : AlarmState) (now : ℚ),
      (trigger_alarm cfg playDur m s now).firing.isSome = true →
        s.alarm_active = false) ∧
    (runFrames cfg playDur s0 t0 inputs).firings.Pairwise
      (fun f g => activeAt f g.start = false) := by
  constructor
  · intro m s now h
    unfold trigger_alarm at h
    split_ifs at h with hc
    · exact hc.1
    · simp at h
  · have h := (runFrames_spec cfg playDur hP hdc inputs s0 t0 hg).2.2
    refine h.imp ?_
    intro f g hfg
    have hnl : ¬(g.start < fEnd f) := not_lt.mpr hfg
    simp [activeAt, hnl]

theorem no_overlap_witness :
    (0 : ℚ) ≤ 5 ∧
    (0 : ℚ) ≤ cooldownSec ⟨1/10, 0, 3000⟩ ∧
    (∀ i ∈ ([⟨100, [16384], false⟩, ⟨100, [16384], false⟩] : List FrameInput),
      0 ≤ i.gap) ∧
    ((∀ (m : String) (s : AlarmState) (now : ℚ),
      (trigger_alarm ⟨1/10, 0, 3000⟩ 5 m s now).firing.isSome = true →
        s.alarm_active = false) ∧
    (runFrames ⟨1/10, 0, 3000⟩ 5 initAlarmState 0
        [⟨100, [16384], false⟩, ⟨100, [16384], false⟩]).firings.Pairwise
      (fun f g => activeAt f g.start = false)) :=
  ⟨by norm_num, by norm_num [cooldownSec], by decide,
    no_overlap ⟨1/10, 0, 3000⟩ 5 initAlarmState 0
      [⟨100, [16384], false⟩, ⟨100, [16384], false⟩]
      (by norm_num) (by norm_num [cooldownSec]) (by decide)⟩

/-- C10: a trigger_alarm call made while the alarm is active, or before
twice the cooldown has elapsed since last_alarm_time, is a complete no-op:
nothing plays, nothing is printed, and both state fields are unchanged. -/
theorem suppressed_trigger_noop (cfg : SoundAlerter) (playDur : ℚ)
    (m : String) (s : AlarmState) (now : ℚ)
    (h : s.alarm_active = true ∨
      (now - s.last_alarm_time) * 1000 < (cfg.alarm_duration : ℚ) * 2) :
    trigger_alarm cfg playDur m s now = noTrig s now := by
  apply trigger_alarm_neg
  rintro ⟨hact, hge⟩
  rcases h with h | h
  · rw [h] at hact
    exact Bool.true_eq_false.mp hact
  · linarith

theorem suppressed_trigger_noop_witness :
    ((false = true) ∨
      ((101 - 100 : ℚ) * 1000 < (((3000 : ℤ) : ℚ)) * 2)) ∧
    trigger_alarm ⟨1/10, 0, 3000⟩ 5 noiseAlarmMsg ⟨false, 100⟩ 101 =
      noTrig ⟨false, 100⟩ 101 :=
  ⟨Or.inr (by norm_num),
    suppressed_trigger_noop ⟨1/10, 0, 3000⟩ 5 noiseAlarmMsg ⟨false, 100⟩ 101
      (Or.inr (by norm_num))⟩



/-- C1 counterexample: with speech_threshold = 0 the speech-combined check
is not skipped. Here the frame has RMS about 0.05, below the noise
threshold 0.1, yet with speech detected the alarm fires, via the speech
path alone. -/
theorem zero_speech_threshold_cex :
    levelGt [1638] ((1 : ℚ)/10) = false ∧
    (check_sound_level ⟨1/10, 0, 3000⟩ 5 [1638] true ⟨false, 0⟩ 100).msgs
      = [speechAlarmMsg] ∧
    (check_sound_level ⟨1/10, 0, 3000⟩ 5 [1638] true ⟨false, 0⟩ 100).firings
      = [⟨100, 5, 3⟩] := by
  have h1 : levelGt [1638] ((1 : ℚ)/10) = false := by
    simp only [levelGt, Bool.or_eq_false_iff, decide_eq_false_iff_not, not_lt]
    refine ⟨by norm_num, ?_⟩
    norm_num [mean_square, normalized_sample]
  have h2 : (levelGt [1638] (0 : ℚ) && true) = true := by
    rw [Bool.and_true]
    simp only [levelGt, Bool.or_eq_true, decide_eq_true_eq]
    right
    norm_num [mean_square, normalized_sample]
  have e := check_eq_speech_only ⟨1/10, 0, 3000⟩ 5 [1638] true ⟨false, 0⟩ 100
    rfl h1 h2 (by norm_num)
  refine ⟨h1, ?_, ?_⟩
  · rw [e]
  · rw [e]
    norm_num [cooldownSec]

/-- C1 amended: when speech_threshold = 0 the speech branch condition
degenerates to LevelReading greater than zero, so any frame with positive
level and a positive speech decision fires the alarm through the speech
path even though the noise threshold is not exceeded; the noise threshold
is not the sole gate. -/
theorem zero_speech_threshold_not_sole_gate (cfg : SoundAlerter)
    (playDur : ℚ) (indata : List ℤ) (s : AlarmState) (now : ℚ)
    (h0 : cfg.speech_threshold = 0)
    (hIdle : s.alarm_active = false)
    (hquiet : rms_level indata ≤ (cfg.threshold : ℝ))
    (hpos : 0 < rms_level indata)
    (hgd : (cfg.alarm_duration : ℚ) * 2 ≤ (now - s.last_alarm_time) * 1000) :
    check_sound_level cfg playDur indata true s now =
      ⟨⟨false, now⟩, now + playDur + cooldownSec cfg,
       [⟨now, playDur, cooldownSec cfg⟩], [speechAlarmMsg]⟩ := by
  have h1 : levelGt indata cfg.threshold = false :=
    (levelGt_eq_false_iff _ _).mpr hquiet
  have h2 : (levelGt indata cfg.speech_threshold && true) = true := by
    rw [Bool.and_true, h0]
    exact (levelGt_iff _ _).mpr (by exact_mod_cast hpos)
  exact check_eq_speech_only cfg playDur indata true s now hIdle h1 h2 hgd

theorem zero_speech_threshold_not_sole_gate_witness :
    (⟨1/10, 0, 3000⟩ : SoundAlerter).speech_threshold = 0 ∧
    rms_level [1638] ≤ (((1 : ℚ)/10 : ℚ) : ℝ) ∧
    0 < rms_level [1638] ∧
    (((3000 : ℤ) : ℚ)) * 2 ≤ ((100 : ℚ) - 0) * 1000 ∧
    check_sound_level ⟨1/10, 0, 3000⟩ 5 [1638] true ⟨false, 0⟩ 100 =
      ⟨⟨false, 100⟩, 100 + 5 + cooldownSec ⟨1/10, 0, 3000⟩,
       [⟨100, 5, cooldownSec ⟨1/10, 0, 3000⟩⟩], [speechAlarmMsg]⟩ := by
  have hr : rms_level [1638] = (1638 : ℝ) / 32768 :=
    rms_level_singleton 1638 (by norm_num)
  refine ⟨rfl, ?_, ?_, by norm_num, ?_⟩
  · rw [hr]
    push_cast
    norm_num
  · rw [hr]
    norm_num
  · exact zero_speech_threshold_not_sole_gate ⟨1/10, 0, 3000⟩ 5 [1638]
      ⟨false, 0⟩ 100 rfl rfl
      (by rw [hr]; push_cast; norm_num)
      (by rw [hr]; norm_num)
      (by norm_num)

/-- C4 counterexample: a cycle in which both the noise and the
speech-combined conditions hold fires TWO alarms when the playback
duration (5 s) is at least the cooldown (3 s): the non-elif speech branch
passes the debounce guard again after the first firing completes. -/
theorem double_fire_cex :
    (check_sound_level ⟨1/10, 1/20, 3000⟩ 5 [16384] true ⟨false, 0⟩ 100).firings.length
      = 2 ∧
    (check_sound_level ⟨1/10, 1/20, 3000⟩ 5 [16384] true ⟨false, 0⟩ 100).msgs
      = [noiseAlarmMsg, speechAlarmMsg] := by
  have h1 : levelGt [16384] ((1 : ℚ)/10) = true := by
    simp only [levelGt, Bool.or_eq_true, decide_eq_true_eq]
    right
    norm_num [mean_square, normalized_sample]
  have h2 : (levelGt [16384] ((1 : ℚ)/20) && true) = true := by
    rw [Bool.and_true]
    simp only [levelGt, Bool.or_eq_true, decide_eq_true_eq]
    right
    norm_num [mean_square, normalized_sample]
  have e := check_eq_both_double ⟨1/10, 1/20, 3000⟩ 5 [16384] true ⟨false, 0⟩ 100
    rfl h1 h2 (by norm_num) (by norm_num [cooldownSec])
  rw [e]
  exact ⟨rfl, rfl⟩

/-- C4 amended: when both conditions hold in one cycle the noise-threshold
check is evaluated first and its message printed first; the cycle fires
exactly one alarm if and only if playback plus cooldown is shorter than
twice the cooldown (equivalently, playback shorter than cooldown), and
otherwise fires exactly two. -/
theorem noise_priority_fire_count (cfg : SoundAlerter) (playDur : ℚ)
    (indata : List ℤ) (sp : Bool) (s : AlarmState) (now : ℚ)
    (hIdle : s.alarm_active = false)
    (hnoise : (cfg.threshold : ℝ) < rms_level indata)
    (hspeech : (cfg.speech_threshold : ℝ) < rms_level indata)
    (hsp : sp = true)
    (hgd : (cfg.alarm_duration : ℚ) * 2 ≤ (now - s.last_alarm_time) * 1000) :
    (check_sound_level cfg playDur indata sp s now).msgs.head? = some noiseAlarmMsg ∧
    ((check_sound_level cfg playDur indata sp s now).firings.length = 1 ∨
      (check_sound_level cfg playDur indata sp s now).firings.length = 2) ∧
    ((check_sound_level cfg playDur indata sp s now).firings.length = 1 ↔
      (playDur + cooldownSec cfg) * 1000 < (cfg.alarm_duration : ℚ) * 2) := by
  have h1 : levelGt indata cfg.threshold = true := (levelGt_iff _ _).mpr hnoise
  have h2 : (levelGt indata cfg.speech_threshold && sp) = true := by
    rw [Bool.and_eq_true]
    exact ⟨(levelGt_iff _ _).mpr hspeech, hsp⟩
  by_cases hg2 : (cfg.alarm_duration : ℚ) * 2 ≤ (playDur + cooldownSec cfg) * 1000
  · rw [check_eq_both_double cfg playDur indata sp s now hIdle h1 h2 hgd hg2]
    exact ⟨rfl, Or.inr rfl, iff_of_false (by simp) (not_lt.mpr hg2)⟩
  · push_neg at hg2
    rw [check_eq_both_single cfg playDur indata sp s now hIdle h1 h2 hgd hg2]
    exact ⟨rfl, Or.inl rfl, iff_of_true rfl hg2⟩

theorem noise_priority_fire_count_witness :
    (⟨false, 0⟩ : AlarmState).alarm_active = false ∧
    (((1 : ℚ)/10 : ℚ) : ℝ) < rms_level [16384] ∧
    (((1 : ℚ)/20 : ℚ) : ℝ) < rms_level [16384] ∧
    (((3000 : ℤ) : ℚ)) * 2 ≤ ((100 : ℚ) - 0) * 1000 ∧
    ((check_sound_level ⟨1/10, 1/20, 3000⟩ 1 [16384] true ⟨false, 0⟩ 100).msgs.head?
        = some noiseAlarmMsg ∧
      ((check_sound_level ⟨1/10, 1/20, 3000⟩ 1 [16384] true ⟨false, 0⟩ 100).firings.length = 1 ∨
        (check_sound_level ⟨1/10, 1/20, 3000⟩ 1 [16384] true ⟨false, 0⟩ 100).firings.length = 2) ∧
      ((check_sound_level ⟨1/10, 1/20, 3000⟩ 1 [16384] true ⟨false, 0⟩ 100).firings.length = 1 ↔
        ((1 : ℚ) + cooldownSec ⟨1/10, 1/20, 3000⟩) * 1000 < (((3000 : ℤ) : ℚ)) * 2)) := by
  have hr : rms_level [16384] = (16384 : ℝ) / 32768 :=
    rms_level_singleton 16384 (by norm_num)
  refine ⟨rfl, ?_, ?_, by norm_num, ?_⟩
  · rw [hr]
    push_cast
    norm_num
  · rw [hr]
    push_cast
    norm_num
  · exact noise_priority_fire_count ⟨1/10, 1/20, 3000⟩ 1 [16384] true
      ⟨false, 0⟩ 100 rfl
      (by rw [hr]; push_cast; norm_num)
      (by rw [hr]; push_cast; norm_num)
      rfl (by norm_num)



/-- C3: from IDLE (alarm_active = false), a cycle fires an alarm iff the
level exceeds the noise threshold, or exceeds the speech threshold with
speech detected, and at least twice the cooldown has elapsed since
last_alarm_time; on firing, playback starts at the callback time now,
last_alarm_time is set to the start of the (last) firing, and the actuator
call blocks until playback plus cooldown have elapsed after it. -/
theorem firing_transition_iff (cfg : SoundAlerter) (playDur : ℚ)
    (indata : List ℤ) (sp : Bool) (s : AlarmState) (now : ℚ)
    (hIdle : s.alarm_active = false) :
    ((check_sound_level cfg playDur indata sp s now).firings ≠ [] ↔
      (((cfg.threshold : ℝ) < rms_level indata ∨
        ((cfg.speech_threshold : ℝ) < rms_level indata ∧ sp = true)) ∧
       (cfg.alarm_duration : ℚ) * 2 ≤ (now - s.last_alarm_time) * 1000)) ∧
    (∀ hne : (check_sound_level cfg playDur indata sp s now).firings ≠ [],
      ((check_sound_level cfg playDur indata sp s now).firings.head hne).start = now ∧
      (check_sound_level cfg playDur indata sp s now).st.last_alarm_time =
        ((check_sound_level cfg playDur indata sp s now).firings.getLast hne).start ∧
      (check_sound_level cfg playDur indata sp s now).time =
        ((check_sound_level cfg playDur indata sp s now).firings.getLast hne).start
          + playDur + cooldownSec cfg) := by
  by_cases hgd : (cfg.alarm_duration : ℚ) * 2 ≤ (now - s.last_alarm_time) * 1000
  · by_cases h1 : levelGt indata cfg.threshold = true
    · by_cases h2 : (levelGt indata cfg.speech_threshold && sp) = true
      · by_cases hg2 : (cfg.alarm_duration : ℚ) * 2 ≤ (playDur + cooldownSec cfg) * 1000
        · rw [check_eq_both_double cfg playDur indata sp s now hIdle h1 h2 hgd hg2]
          refine ⟨iff_of_true (by simp) ⟨Or.inl ((levelGt_iff _ _).mp h1), hgd⟩, ?_⟩
          intro hne
          exact ⟨rfl, rfl, rfl⟩
        · push_neg at hg2
          rw [check_eq_both_single cfg playDur indata sp s now hIdle h1 h2 hgd hg2]
          refine ⟨iff_of_true (by simp) ⟨Or.inl ((levelGt_iff _ _).mp h1), hgd⟩, ?_⟩
          intro hne
          exact ⟨rfl, rfl, rfl⟩
      · have h2' := Bool.eq_false_iff.mpr h2
        rw [check_eq_noise_only cfg playDur indata sp s now hIdle h1 h2' hgd]
        refine ⟨iff_of_true (by simp) ⟨Or.inl ((levelGt_iff _ _).mp h1), hgd⟩, ?_⟩
        intro hne
        exact ⟨rfl, rfl, rfl⟩
    · have h1' := Bool.eq_false_iff.mpr h1
      by_cases h2 : (levelGt indata cfg.speech_threshold && sp) = true
      · rw [check_eq_speech_only cfg playDur indata sp s now hIdle h1' h2 hgd]
        rw [Bool.and_eq_true] at h2
        refine ⟨iff_of_true (by simp)
          ⟨Or.inr ⟨(levelGt_iff _ _).mp h2.1, h2.2⟩, hgd⟩, ?_⟩
        intro hne
        exact ⟨rfl, rfl, rfl⟩
      · have h2' := Bool.eq_false_iff.mpr h2
        rw [check_eq_no_conditions cfg playDur indata sp s now h1' h2']
        refine ⟨iff_of_false (by simp) ?_, ?_⟩
        · rintro ⟨hc | ⟨hsR, hspR⟩, -⟩
          · rw [(levelGt_iff _ _).mpr hc] at h1'
            exact Bool.true_eq_false.mp h1'
          · rw [(levelGt_iff _ _).mpr hsR, hspR] at h2'
            simp at h2'
        · intro hne
          exact absurd rfl hne
  · rw [check_eq_guard_blocked cfg playDur indata sp s now hgd]
    refine ⟨iff_of_false (by simp) ?_, ?_⟩
    · rintro ⟨-, h⟩
      exact hgd h
    · intro hne
      exact absurd rfl hne

theorem firing_transition_iff_witness :
    (⟨false, 0⟩ : AlarmState).alarm_active = false ∧
    (((check_sound_level ⟨1/10, 0, 3000⟩ 5 [16384] false ⟨false, 0⟩ 100).firings ≠ [] ↔
      (((((1 : ℚ)/10 : ℚ) : ℝ) < rms_level [16384] ∨
        (((0 : ℚ) : ℝ) < rms_level [16384] ∧ false = true)) ∧
       (((3000 : ℤ) : ℚ)) * 2 ≤ ((100 : ℚ) - 0) * 1000)) ∧
    (∀ hne : (check_sound_level ⟨1/10, 0, 3000⟩ 5 [16384] false ⟨false, 0⟩ 100).firings ≠ [],
      ((check_sound_level ⟨1/10, 0, 3000⟩ 5 [16384] false ⟨false, 0⟩ 100).firings.head hne).start = 100 ∧
      (check_sound_level ⟨1/10, 0, 3000⟩ 5 [16384] false ⟨false, 0⟩ 100).st.last_alarm_time =
        ((check_sound_level ⟨1/10, 0, 3000⟩ 5 [16384] false ⟨false, 0⟩ 100).firings.getLast hne).start ∧
      (check_sound_level ⟨1/10, 0, 3000⟩ 5 [16384] false ⟨false, 0⟩ 100).time =
        ((check_sound_level ⟨1/10, 0, 3000⟩ 5 [16384] false ⟨false, 0⟩ 100).firings.getLast hne).start
          + 5 + cooldownSec ⟨1/10, 0, 3000⟩)) :=
  ⟨rfl, firing_transition_iff ⟨1/10, 0, 3000⟩ 5 [16384] false ⟨false, 0⟩ 100 rfl⟩

/-- C6 counterexample: after a firing with playback 1 s and cooldown 3 s
starting at time 100, the active flag is still set at time 102, after
playback has completed, because the flag is held through the cooldown
sleep; so active is not true only during playback. -/
theorem active_during_cooldown_cex :
    (trigger_alarm ⟨1/10, 0, 3000⟩ 1 noiseAlarmMsg ⟨false, 0⟩ 100).firing
      = some ⟨100, 1, 3⟩ ∧
    activeAt ⟨100, 1, 3⟩ 102 = true ∧
    playingAt ⟨100, 1, 3⟩ 102 = false := by
  refine ⟨?_, ?_, ?_⟩
  · rw [trigger_alarm_pos ⟨1/10, 0, 3000⟩ 1 noiseAlarmMsg ⟨false, 0⟩ 100
      ⟨rfl, by norm_num⟩]
    norm_num [cooldownSec]
  · simp only [activeAt, fEnd, Bool.and_eq_true, decide_eq_true_eq]
    norm_num
  · have hnp : ¬((102 : ℚ) < 100 + 1) := by norm_num
    simp [playingAt, hnp]

/-- C6 amended: in every reachable firing of the serialized run, the
active flag is true exactly on the open interval from the trigger to the
end of the cooldown sleep: whenever it is true the clip is either still
playing or within the post-playback cooldown hold, every instant strictly
between trigger and cooldown end is active, and at most one alarm plays
at any instant. -/
theorem active_playback_and_cooldown (cfg : SoundAlerter) (playDur : ℚ)
    (s0 : AlarmState) (t0 : ℚ) (inputs : List FrameInput)
    (hP : 0 ≤ playDur) (hdc : 0 ≤ cooldownSec cfg)
    (hg : ∀ i ∈ inputs, 0 ≤ i.gap) :
    (∀ f ∈ (runFrames cfg playDur s0 t0 inputs).firings, ∀ t : ℚ,
      (activeAt f t = true →
        playingAt f t = true ∨ (f.start + f.playDur ≤ t ∧ t < fEnd f)) ∧
      (f.start < t → t < fEnd f → activeAt f t = true)) ∧
    (runFrames cfg playDur s0 t0 inputs).firings.Pairwise
      (fun f g => ∀ t : ℚ, ¬(playingAt f t = true ∧ playingAt g t = true)) := by
  obtain ⟨-, h2, h3⟩ := runFrames_spec cfg playDur hP hdc inputs s0 t0 hg
  constructor
  · intro f hf t
    constructor
    · intro hact
      rw [activeAt, Bool.and_eq_true, decide_eq_true_eq, decide_eq_true_eq] at hact
      by_cases hp : t < f.start + f.playDur
      · left
        rw [playingAt, Bool.and_eq_true, decide_eq_true_eq, decide_eq_true_eq]
        exact ⟨hact.1.le, hp⟩
      · exact Or.inr ⟨not_lt.mp hp, hact.2⟩
    · intro hlt hend
      rw [activeAt, Bool.and_eq_true, decide_eq_true_eq, decide_eq_true_eq]
      exact ⟨hlt, hend⟩
  · refine h3.imp_of_mem ?_
    intro f g hfm hgm hfg t hpl
    obtain ⟨hpf, hpg⟩ := hpl
    obtain ⟨efP, efC, -, -⟩ := h2 f hfm
    rw [playingAt, Bool.and_eq_true, decide_eq_true_eq, decide_eq_true_eq] at hpf hpg
    have h4 : f.start + f.playDur ≤ fEnd f := by
      rw [fEnd, efC]
      linarith
    linarith [hpf.2, hpg.1, hfg, h4]

theorem active_playback_and_cooldown_witness :
    (0 : ℚ) ≤ 1 ∧
    (0 : ℚ) ≤ cooldownSec ⟨1/10, 0, 3000⟩ ∧
    (∀ i ∈ ([⟨100, [16384], false⟩] : List FrameInput), 0 ≤ i.gap) ∧
    ((∀ f ∈ (runFrames ⟨1/10, 0, 3000⟩ 1 initAlarmState 0
        [⟨100, [16384], false⟩]).firings, ∀ t : ℚ,
      (activeAt f t = true →
        playingAt f t = true ∨ (f.start + f.playDur ≤ t ∧ t < fEnd f)) ∧
      (f.start < t → t < fEnd f → activeAt f t = true)) ∧
    (runFrames ⟨1/10, 0, 3000⟩ 1 initAlarmState 0
        [⟨100, [16384], false⟩]).firings.Pairwise
      (fun f g => ∀ t : ℚ, ¬(playingAt f t = true ∧ playingAt g t = true))) :=
  ⟨by norm_num, by norm_num [cooldownSec], by decide,
    active_playback_and_cooldown ⟨1/10, 0, 3000⟩ 1 initAlarmState 0
      [⟨100, [16384], false⟩]
      (by norm_num) (by norm_num [cooldownSec]) (by decide)⟩

/-- C7: the implemented level estimator coincides with the reference
definition of the specification (sqrt of the mean of squares of samples
normalized by the maximum representable int16 magnitude 32768), and every
all-zero frame yields a reading of exactly 0. -/
theorem rms_matches_spec_formula :
    (∀ indata : List ℤ, rms_level indata = specLevelReading indata) ∧
    (∀ indata : List ℤ, (∀ x ∈ indata, x = 0) → rms_level indata = 0) :=
  ⟨rms_level_eq_spec, rms_level_zero_frame⟩

theorem rms_matches_spec_formula_witness :
    rms_level [0, 0] = specLevelReading [0, 0] ∧ rms_level [0, 0] = 0 :=
  ⟨rms_matches_spec_formula.1 [0, 0],
    rms_matches_spec_formula.2 [0, 0] (by simp)⟩

/-- C8 counterexample: a full-scale constant frame (all samples 32767)
yields exactly 32767/32768, which differs from 1.0 by 1/32768, about
3.05e-5, far larger than even single-precision machine epsilon 2^-23; so
the reading does not equal 1.0 within floating-point tolerance. -/
theorem full_scale_rms_not_one_cex :
    rms_level [32767] = (32767 : ℝ) / 32768 ∧
    rms_level [32767] ≠ 1 ∧
    (1 : ℝ) - rms_level [32767] = 1 / 32768 ∧
    ((1 : ℝ)/2) ^ 23 < 1 / 32768 := by
  have h := rms_level_singleton 32767 (by norm_num)
  refine ⟨h, ?_, ?_, ?_⟩
  · rw [h]
    norm_num
  · rw [h]
    norm_num
  · norm_num

/-- C8 amended: for every nonempty frame with all int16 samples at the
maximum positive magnitude 32767, the level reading is exactly
32767/32768 (about 0.99997), within 1/32768 of 1.0 but not equal to it. -/
theorem full_scale_rms_value (n : ℕ) (hn : 0 < n) :
    rms_level (List.replicate n 32767) = (32767 : ℝ) / 32768 :=
  rms_level_replicate n hn 32767 (by norm_num)

theorem full_scale_rms_value_witness :
    0 < 1 ∧ rms_level (List.replicate 1 32767) = (32767 : ℝ) / 32768 :=
  ⟨Nat.one_pos, full_scale_rms_value 1 Nat.one_pos⟩

/-- C9: if the configured alarm clip fails to load (FileNotFoundError),
the process prints a diagnostic that contains the configured file name,
exits with the non-zero status 1, and never opens the input stream. -/
theorem startup_missing_alarm_file (alarm_file : String) :
    (∃ c : ℕ, (startup alarm_file false).exitCode = some c ∧ c ≠ 0) ∧
    (startup alarm_file false).streamOpened = false ∧
    (startup alarm_file false).output = [alarmNotFoundMsg alarm_file] ∧
    (∃ pre post : List Char,
      (alarmNotFoundMsg alarm_file).data = pre ++ alarm_file.data ++ post) := by
  refine ⟨⟨1, rfl, one_ne_zero⟩, rfl, rfl,
    ("Error: Alarm file " ++ squote).data, (squote ++ " not found.").data, ?_⟩
  unfold alarmNotFoundMsg
  simp only [String.data_append, List.append_assoc]


end SoundAlert
